import Mathlib

/-!
Shallow embedding of the dual-LLM Q&A agents repository
(`src/app/agents.py`, `src/app/schemas.py`, `src/app/main.py`).

The external OpenAI completion service is modelled as an oracle: a function
from the call's sequence number (each iteration makes two external calls,
the question call at index `2*i` and the answer call at index `2*i+1`) and
the request payload to either a generated text or an exception message
(`Except String String`, the error carrying Python's `str(e)`).  Python
floats are modelled as exact rationals: every progress value arising for
`num_pairs ≤ 50` is a fraction with denominator at most 49, far from the
representation error of the double literals `0.33` and `0.66`, so the
comparisons agree.
-/

/-- A chat message as passed to `client.chat.completions.create`
(`agents.py`, the `messages` list). -/
structure ChatMessage where
  role : String
  content : String
deriving DecidableEq, Repr

/-- The payload of one call to the external completion service:
model name, messages, sampling temperature and maximum output length
(`agents.py` lines 62-76 and 117-131). -/
structure CompletionRequest where
  model : String
  messages : List ChatMessage
  temperature : ℚ
  max_tokens : ℕ
deriving DecidableEq, Repr

/-- The `RuntimeError` raised by the two agents when the external call fails
(`agents.py` lines 88 and 140); the spec calls it `GenerationError`. -/
structure GenerationError where
  message : String
deriving DecidableEq, Repr

/-- The external completion service, one result per call sequence number. -/
def Oracle : Type := ℕ → CompletionRequest → Except String String

/-- Python's `str.strip()` as used throughout the repository: drop leading
and trailing whitespace characters (modelled for the ASCII whitespace set of
`Char.isWhitespace`; on ASCII input this coincides with Python). -/
def strip (s : String) : String :=
  String.mk (((s.data.dropWhile Char.isWhitespace).reverse.dropWhile Char.isWhitespace).reverse)

/-- Difficulty selection of `QuestionAgent.generate_question`
(`agents.py` lines 31-37):
`progress = iteration / max(total_iterations - 1, 1)` and the
`0.33` / `0.66` threshold ladder. -/
def difficulty_of (iteration total_iterations : ℕ) : String :=
  let progress : ℚ := (iteration : ℚ) / max ((total_iterations : ℚ) - 1) 1
  if progress < 0.33 then "easy"
  else if progress < 0.66 then "medium"
  else "hard"

/-- The slice `self.question_history[-3:]` read when building the prompt
(`agents.py` line 43): the at most 3 most recent entries. -/
def recent_questions (history : List String) : List String :=
  history.drop (history.length - 3)

/-- `history_context` of `generate_question` (`agents.py` lines 40-44). -/
def history_context_of (history : List String) : String :=
  if history.isEmpty then ""
  else
    "\n\nPreviously asked questions:\n" ++
      String.intercalate "\n" ((recent_questions history).map (fun q => "- " ++ q))

/-- The user prompt of `generate_question` (`agents.py` lines 46-59). -/
def question_prompt (subject difficulty history_context : String) : String :=
  "You are an expert educator creating " ++ difficulty ++
  " level questions about " ++ subject ++
  ".\n\nGenerate ONE clear, unambiguous question about " ++ subject ++
  " at " ++ difficulty ++ " difficulty level.\n\nRequirements:\n" ++
  "- The question must be specific and answerable\n" ++
  "- Make it different from previous questions in style and focus\n" ++
  "- For easy: focus on definitions and basic concepts\n" ++
  "- For medium: focus on application and understanding\n" ++
  "- For hard: focus on analysis, synthesis, or complex scenarios\n" ++
  "- Do not repeat similar questions\n" ++ history_context ++
  "\n\nGenerate only the question, no explanations or preamble."

/-- State of a `QuestionAgent` instance (`agents.py` lines 12-16); the
`api_key`/`client` live at the external-collaborator boundary and are not
part of the core state. -/
structure QuestionAgent where
  model : String
  question_history : List String
deriving DecidableEq, Repr

/-- A fresh `QuestionAgent` (`agents.py` `__init__`). -/
def QuestionAgent.init : QuestionAgent :=
  { model := "gpt-4o-mini", question_history := [] }

/-- The completion request built by `generate_question`
(`agents.py` lines 62-76): temperature 0.7, at most 200 output tokens. -/
def question_request (agent : QuestionAgent) (subject : String)
    (iteration total_iterations : ℕ) : CompletionRequest :=
  { model := agent.model
    messages :=
      [ { role := "system"
          content := "You are a helpful assistant that generates educational questions." },
        { role := "user"
          content := question_prompt subject (difficulty_of iteration total_iterations)
            (history_context_of agent.question_history) } ]
    temperature := 0.7
    max_tokens := 200 }

/-- `QuestionAgent.generate_question` (`agents.py` lines 18-88): build the
request, call the service once; on success trim the content, append it to
`self.question_history` and return it; on failure wrap the exception in
`RuntimeError("Failed to generate question: ...")`. -/
def generate_question (agent : QuestionAgent) (subject : String)
    (iteration total_iterations : ℕ)
    (respond : CompletionRequest → Except String String) :
    Except GenerationError (String × QuestionAgent) :=
  match respond (question_request agent subject iteration total_iterations) with
  | Except.error e => Except.error { message := "Failed to generate question: " ++ e }
  | Except.ok content =>
      let question := strip content
      Except.ok (question,
        { agent with question_history := agent.question_history ++ [question] })

/-- The user prompt of `generate_answer` (`agents.py` lines 108-114). -/
def answer_prompt (question : String) : String :=
  "You are a knowledgeable expert. Answer the following question concisely and accurately.\n\nQuestion: " ++
  question ++
  "\n\nProvide a clear, well-structured answer. Be informative but concise. Use examples if they help clarify the concept.\n\nAnswer:"

/-- The completion request built by `generate_answer`
(`agents.py` lines 117-131): temperature 0.5, at most 500 output tokens. -/
def answer_request (question : String) : CompletionRequest :=
  { model := "gpt-4o-mini"
    messages :=
      [ { role := "system"
          content := "You are a knowledgeable expert who provides clear and accurate answers." },
        { role := "user", content := answer_prompt question } ]
    temperature := 0.5
    max_tokens := 500 }

/-- `AnswerAgent.generate_answer` (`agents.py` lines 98-140): stateless;
on success return the trimmed content, on failure wrap the exception in
`RuntimeError("Failed to generate answer: ...")`. -/
def generate_answer (question : String)
    (respond : CompletionRequest → Except String String) :
    Except GenerationError String :=
  match respond (answer_request question) with
  | Except.error e => Except.error { message := "Failed to generate answer: " ++ e }
  | Except.ok content => Except.ok (strip content)

/-- One QA pair dictionary as assembled by `run_qa_session`
(`agents.py` lines 171-175) and the `QAPair` model of `schemas.py`. -/
structure QAPair where
  id : ℕ
  question : String
  answer : String
deriving DecidableEq, Repr

/-- The body of one iteration of the loop in `run_qa_session`
(`agents.py` lines 162-182): generate a question, generate an answer,
append `{id: i+1, question, answer}`; any exception propagates unchanged
(the `except ... raise` re-raises). -/
def run_step (subject : String) (num_pairs : ℕ) (oracle : Oracle)
    (st : QuestionAgent × List QAPair) (i : ℕ) :
    Except GenerationError (QuestionAgent × List QAPair) :=
  match generate_question st.1 subject i num_pairs (oracle (2 * i)) with
  | Except.error e => Except.error e
  | Except.ok (question, agent) =>
      match generate_answer question (oracle (2 * i + 1)) with
      | Except.error e => Except.error e
      | Except.ok answer =>
          Except.ok (agent, st.2 ++ [{ id := i + 1, question := question, answer := answer }])

/-- The state of the loop of `run_qa_session` (`agents.py` lines 155-176)
after its first `i` iterations: the question agent (history included) and
the accumulated `pairs` list, or the first error raised. -/
def session_state (subject : String) (num_pairs : ℕ) (oracle : Oracle) :
    ℕ → Except GenerationError (QuestionAgent × List QAPair)
  | 0 => Except.ok (QuestionAgent.init, [])
  | i + 1 =>
      match session_state subject num_pairs oracle i with
      | Except.error e => Except.error e
      | Except.ok st => run_step subject num_pairs oracle st i

/-- `run_qa_session` (`agents.py` lines 143-185): run all `num_pairs`
iterations and return the pairs, or propagate the first error. -/
def run_qa_session (subject : String) (num_pairs : ℕ) (oracle : Oracle) :
    Except GenerationError (List QAPair) :=
  match session_state subject num_pairs oracle num_pairs with
  | Except.error e => Except.error e
  | Except.ok st => Except.ok st.2

/-- The validated form of `SessionRequest` (`schemas.py` lines 5-15):
`subject` already stripped and non-empty, `num_pairs` in `[1, 50]`. -/
structure SessionRequest where
  subject : String
  num_pairs : ℕ
deriving DecidableEq, Repr

/-- Pydantic validation of `SessionRequest` (`schemas.py` lines 5-15),
fields in declaration order: `subject` must satisfy `min_length=1`, then the
`subject_not_empty` validator rejects whitespace-only values and returns
`v.strip()`; `num_pairs` (defaulting to 10 when omitted) must satisfy
`ge=1` and `le=50`. -/
def validate_session_request (subject : String) (num_pairs : Option ℤ) :
    Except String SessionRequest :=
  if subject.length < 1 then
    Except.error "String should have at least 1 character"
  else if (strip subject).isEmpty then
    Except.error "Subject cannot be empty or whitespace only"
  else
    let n : ℤ := num_pairs.getD 10
    if n < 1 then Except.error "Input should be greater than or equal to 1"
    else if 50 < n then Except.error "Input should be less than or equal to 50"
    else Except.ok { subject := strip subject, num_pairs := n.toNat }

/-- The `SessionResponse` model (`schemas.py` lines 25-29). -/
structure SessionResponse where
  subject : String
  num_pairs : ℕ
  pairs : List QAPair
deriving DecidableEq, Repr

/-- The `SessionResponse` built by the endpoint (`main.py` lines 90-94):
`num_pairs` is `len(pairs)`, the actual count produced. -/
def build_session_response (subject : String) (pairs : List QAPair) : SessionResponse :=
  { subject := subject, num_pairs := pairs.length, pairs := pairs }

/-- `safe_subject` of `main.py` line 98: every non-alphanumeric character of
the subject replaced by an underscore. -/
def safe_subject (s : String) : String :=
  s.map (fun c => if c.isAlphanum then c else '_')

/-- The archive file name (`main.py` lines 97-99). -/
def session_filename (subject timestamp : String) : String :=
  "qa_session_" ++ safe_subject subject ++ "_" ++ timestamp ++ ".json"

/-- The `/run-session` endpoint body after validation (`main.py` lines
78-107): run the session on the validated request's fields and, on success,
build the response and the archive file name; the persistence write itself
is an external side effect and carries no further data. -/
def run_session (request : SessionRequest) (oracle : Oracle) (timestamp : String) :
    Except GenerationError (SessionResponse × String) :=
  match run_qa_session request.subject request.num_pairs oracle with
  | Except.error e => Except.error e
  | Except.ok pairs =>
      Except.ok (build_session_response request.subject pairs,
        session_filename request.subject timestamp)

/-!
### Shared lemmas about the session loop
-/

/-- The loop state after `i` all-successful iterations: the question history
has grown to exactly `i` entries and the accumulated pairs carry ids
`1, 2, ..., i` in generation order. -/
lemma session_state_ok (subject : String) (N : ℕ) (oracle : Oracle) (i : ℕ) :
    (∀ n, n < 2 * i → ∀ req, ∃ s, oracle n req = Except.ok s) →
    ∃ agent pairs, session_state subject N oracle i = Except.ok (agent, pairs) ∧
      agent.question_history.length = i ∧
      pairs.length = i ∧
      pairs.map QAPair.id = List.range' 1 i := by
  induction i with
  | zero => exact fun _ => ⟨QuestionAgent.init, [], rfl, rfl, rfl, rfl⟩
  | succ i ih =>
    intro hok
    obtain ⟨agent, pairs, hstate, hhist, hlen, hmap⟩ :=
      ih (fun n hn req => hok n (by omega) req)
    obtain ⟨s, hs⟩ := hok (2 * i) (by omega) (question_request agent subject i N)
    obtain ⟨t, ht⟩ := hok (2 * i + 1) (by omega) (answer_request (strip s))
    refine ⟨{ agent with question_history := agent.question_history ++ [strip s] },
      pairs ++ [{ id := i + 1, question := strip s, answer := strip t }], ?_, ?_, ?_, ?_⟩
    · simp only [session_state, hstate, run_step, generate_question, generate_answer, hs, ht]
    · simp [hhist]
    · simp [hlen]
    · simp [hmap, hlen, List.range'_1_concat, Nat.add_comm]

/-- Once the loop has failed, every later loop state reports the same first
error (the `except ... raise` in `run_qa_session` re-raises it unchanged). -/
lemma session_state_error_mono (subject : String) (N : ℕ) (oracle : Oracle)
    (i : ℕ) (e : GenerationError)
    (h : session_state subject N oracle i = Except.error e) :
    ∀ j, i ≤ j → session_state subject N oracle j = Except.error e := by
  intro j
  induction j with
  | zero =>
    intro hij
    have hi0 : i = 0 := Nat.le_zero.mp hij
    exact hi0 ▸ h
  | succ j ih =>
    intro hij
    rcases Nat.eq_or_lt_of_le hij with heq | hlt
    · exact heq ▸ h
    · have hj := ih (by omega)
      simp only [session_state, hj]

/-!
### C2, C6, C8
-/

/-- The difficulty formula exactly as the spec states it (§4.1), to be
compared with `difficulty_of`, the formula translated from `agents.py`. -/
def difficulty_spec (iteration_index total_iterations : ℕ) : String :=
  let progress : ℚ := (iteration_index : ℚ) / max ((total_iterations : ℚ) - 1) 1
  if progress < 0.33 then "easy"
  else if progress < 0.66 then "medium"
  else "hard"

/-- C2: the difficulty chosen by `generate_question` is the deterministic
pure function of `(i, N)` given by the spec's formula; for `N = 1` every
in-range iteration gets "easy", and for `N = 3` the three iterations get
"easy" (progress 0), "medium" (progress 1/2) and "hard" (progress 1). -/
theorem spec_c2 (i N : ℕ) :
    difficulty_of i N = difficulty_spec i N ∧
    (i < 1 → difficulty_of i 1 = "easy") ∧
    difficulty_of 0 3 = "easy" ∧
    difficulty_of 1 3 = "medium" ∧
    difficulty_of 2 3 = "hard" := by
  refine ⟨rfl, ?_, ?_, ?_, ?_⟩
  · intro hi
    have hi0 : i = 0 := by omega
    subst hi0
    norm_num [difficulty_of, max_def]
  · norm_num [difficulty_of, max_def]
  · norm_num [difficulty_of, max_def]
  · norm_num [difficulty_of, max_def]

/-- Witness for C2 at the concrete input `i = 0`, `N = 1`. -/
theorem spec_c2_witness :
    difficulty_of 0 1 = difficulty_spec 0 1 ∧ difficulty_of 0 1 = "easy" :=
  ⟨(spec_c2 0 1).1, (spec_c2 0 1).2.1 (by decide)⟩

/-- The position of a difficulty string in the ordered scale
easy ≤ medium ≤ hard used by the spec's monotonicity property. -/
def difficulty_rank (d : String) : ℕ :=
  if d = "easy" then 0
  else if d = "medium" then 1
  else if d = "hard" then 2
  else 3

/-- C6: for a fixed total count `N`, the difficulty assigned by
`generate_question` is monotone non-decreasing in the scale
easy ≤ medium ≤ hard as the iteration index increases through `0..N-1`. -/
theorem spec_c6 (N i j : ℕ) (hij : i ≤ j) (_hj : j < N) :
    difficulty_rank (difficulty_of i N) ≤ difficulty_rank (difficulty_of j N) := by
  have hd : (0 : ℚ) < max ((N : ℚ) - 1) 1 := lt_of_lt_of_le one_pos (le_max_right _ _)
  have hprog : (i : ℚ) / max ((N : ℚ) - 1) 1 ≤ (j : ℚ) / max ((N : ℚ) - 1) 1 :=
    (div_le_div_iff_of_pos_right hd).mpr (by exact_mod_cast hij)
  simp only [difficulty_of]
  by_cases hj1 : (j : ℚ) / max ((N : ℚ) - 1) 1 < 0.33
  · have hi1 : (i : ℚ) / max ((N : ℚ) - 1) 1 < 0.33 := lt_of_le_of_lt hprog hj1
    rw [if_pos hi1, if_pos hj1]
  · by_cases hj2 : (j : ℚ) / max ((N : ℚ) - 1) 1 < 0.66
    · rw [if_neg hj1, if_pos hj2]
      by_cases hi1 : (i : ℚ) / max ((N : ℚ) - 1) 1 < 0.33
      · rw [if_pos hi1]
        simp [difficulty_rank]
      · have hi2 : (i : ℚ) / max ((N : ℚ) - 1) 1 < 0.66 := lt_of_le_of_lt hprog hj2
        rw [if_neg hi1, if_pos hi2]
    · rw [if_neg hj1, if_neg hj2]
      split_ifs <;> simp [difficulty_rank]

/-- Witness for C6 at the concrete input `N = 3`, `i = 0`, `j = 2`. -/
theorem spec_c6_witness :
    difficulty_rank (difficulty_of 0 3) ≤ difficulty_rank (difficulty_of 2 3) :=
  spec_c6 3 0 2 (by decide) (by decide)

/-- C8: the request `generate_question` sends to the completion service
(by definition it calls `respond` exactly on `question_request`) always has
temperature 0.7 and at most 200 output tokens, the request `generate_answer`
sends (it calls `respond` exactly on `answer_request`) always has
temperature 0.5 and at most 500 output tokens, and the two configurations
are never swapped or shared: both fields differ between the roles. -/
theorem spec_c8 (agent : QuestionAgent) (subject : String) (i N : ℕ) (q : String) :
    (question_request agent subject i N).temperature = 0.7 ∧
    (question_request agent subject i N).max_tokens = 200 ∧
    (answer_request q).temperature = 0.5 ∧
    (answer_request q).max_tokens = 500 ∧
    (question_request agent subject i N).temperature ≠ (answer_request q).temperature ∧
    (question_request agent subject i N).max_tokens ≠ (answer_request q).max_tokens := by
  refine ⟨rfl, rfl, rfl, rfl, ?_, ?_⟩
  · show (0.7 : ℚ) ≠ 0.5
    norm_num
  · show (200 : ℕ) ≠ 500
    norm_num

/-!
### C1, C3, C4, C5
-/

/-- If the ids of a pair list read `s, s+1, ...` then the pair at position
`k` has id `s + k`. -/
lemma qa_ids_get (pairs : List QAPair) :
    ∀ (s N : ℕ), List.map QAPair.id pairs = List.range' s N →
      ∀ k (hk : k < pairs.length), (pairs.get ⟨k, hk⟩).id = s + k := by
  induction pairs with
  | nil => intro s N _ k hk; simp at hk
  | cons p ps ih =>
    intro s N hmap k hk
    cases N with
    | zero => simp [List.range'] at hmap
    | succ n =>
      rw [List.range'_succ] at hmap
      simp only [List.map_cons, List.cons.injEq] at hmap
      obtain ⟨hp, hps⟩ := hmap
      cases k with
      | zero => simpa using hp
      | succ k =>
        have hk' : k < ps.length := by simpa using Nat.lt_of_succ_lt_succ hk
        have := ih (s + 1) n hps k hk'
        simp only [List.get_cons_succ]
        omega

/-- C1: with `num_pairs = N` in `[1, 50]` and every external call
succeeding, `run_qa_session` returns exactly `N` pairs whose ids are
`1..N` in generation order (no gaps, no duplicates, `pairs[k].id = k+1`),
and the `SessionResponse` the endpoint builds from them satisfies
`num_pairs = length pairs`. -/
theorem spec_c1 (subject : String) (N : ℕ) (oracle : Oracle)
    (_hN1 : 1 ≤ N) (_hN50 : N ≤ 50)
    (hok : ∀ n req, ∃ s, oracle n req = Except.ok s) :
    ∃ pairs, run_qa_session subject N oracle = Except.ok pairs ∧
      pairs.length = N ∧
      List.map QAPair.id pairs = List.range' 1 N ∧
      (∀ k (hk : k < pairs.length), (pairs.get ⟨k, hk⟩).id = k + 1) ∧
      (build_session_response subject pairs).num_pairs = pairs.length := by
  obtain ⟨agent, pairs, hstate, hhist, hlen, hmap⟩ :=
    session_state_ok subject N oracle N (fun n _ req => hok n req)
  refine ⟨pairs, ?_, hlen, hmap, ?_, rfl⟩
  · simp only [run_qa_session, hstate]
  · intro k hk
    have := qa_ids_get pairs 1 N hmap k hk
    omega

/-- Witness for C1 at `subject = "Photosynthesis"`, `N = 3`, and an oracle
that always answers `"q"`. -/
theorem spec_c1_witness :
    ∃ pairs, run_qa_session "Photosynthesis" 3 (fun _ _ => Except.ok "q") = Except.ok pairs ∧
      pairs.length = 3 ∧
      List.map QAPair.id pairs = List.range' 1 3 ∧
      (∀ k (hk : k < pairs.length), (pairs.get ⟨k, hk⟩).id = k + 1) ∧
      (build_session_response "Photosynthesis" pairs).num_pairs = pairs.length :=
  spec_c1 "Photosynthesis" 3 (fun _ _ => Except.ok "q") (by decide) (by decide)
    (fun _ _ => ⟨"q", rfl⟩)

/-- C3: if all external calls before iteration `k` succeed and the question
call (resp. the answer call) of iteration `k` raises, `run_qa_session`
aborts at once with exactly the `GenerationError` raised by the failing
generator — wrapped once by the generator itself, then propagated unchanged
by the orchestrator — and returns no pairs at all: the `Except.error` result
carries none of the pairs generated in iterations `< k`. -/
theorem spec_c3 (subject : String) (N k : ℕ) (oracle : Oracle) (msg : String)
    (hk : k < N)
    (hprev : ∀ n, n < 2 * k → ∀ req, ∃ s, oracle n req = Except.ok s) :
    ((∀ req, oracle (2 * k) req = Except.error msg) →
      run_qa_session subject N oracle =
        Except.error { message := "Failed to generate question: " ++ msg }) ∧
    ((∀ req, ∃ s, oracle (2 * k) req = Except.ok s) →
     (∀ req, oracle (2 * k + 1) req = Except.error msg) →
      run_qa_session subject N oracle =
        Except.error { message := "Failed to generate answer: " ++ msg }) := by
  obtain ⟨agent, pairs, hstate, hhist, hlen, hmap⟩ :=
    session_state_ok subject N oracle k hprev
  constructor
  · intro hq
    have hk1 : session_state subject N oracle (k + 1) =
        Except.error { message := "Failed to generate question: " ++ msg } := by
      simp only [session_state, hstate, run_step, generate_question,
        hq (question_request agent subject k N)]
    have hN := session_state_error_mono subject N oracle (k + 1) _ hk1 N (by omega)
    simp only [run_qa_session, hN]
  · intro hqok ha
    obtain ⟨s, hs⟩ := hqok (question_request agent subject k N)
    have hk1 : session_state subject N oracle (k + 1) =
        Except.error { message := "Failed to generate answer: " ++ msg } := by
      simp only [session_state, hstate, run_step, generate_question, generate_answer, hs,
        ha (answer_request (strip s))]
    have hN := session_state_error_mono subject N oracle (k + 1) _ hk1 N (by omega)
    simp only [run_qa_session, hN]

/-- Witness for C3: with `N = 2` the two calls of iteration 0 succeed and
the question call of iteration 1 fails with `"boom"`; the session returns
the wrapped error and no pairs. -/
theorem spec_c3_witness :
    run_qa_session "Biology" 2
        (fun n _ => if n < 2 then Except.ok "q" else Except.error "boom") =
      Except.error { message := "Failed to generate question: " ++ "boom" } :=
  (spec_c3 "Biology" 2 1
      (fun n _ => if n < 2 then Except.ok "q" else Except.error "boom") "boom"
      (by decide)
      (fun n hn _ => ⟨"q", if_pos (by omega : n < 2)⟩)).1
    (fun _ => if_neg (by omega : ¬ (2 * 1 < 2)))

/-- C4: the question-history window read when building a prompt is the
suffix of the at most 3 most recent questions — exactly `min (length h) 3`
entries — while the stored history itself is never truncated: at iteration
`i` of a session whose first `i` iterations succeeded, the generator's
history holds all `i` questions and the window holds `min i 3` of them. -/
theorem spec_c4 (h : List String) (subject : String) (N : ℕ) (oracle : Oracle)
    (i : ℕ) (_hiN : i < N) :
    (recent_questions h).length = min h.length 3 ∧
    List.IsSuffix (recent_questions h) h ∧
    ((∀ n, n < 2 * i → ∀ req, ∃ s, oracle n req = Except.ok s) →
      ∃ agent pairs, session_state subject N oracle i = Except.ok (agent, pairs) ∧
        agent.question_history.length = i ∧
        (recent_questions agent.question_history).length = min i 3) := by
  refine ⟨?_, List.drop_suffix _ _, ?_⟩
  · simp only [recent_questions, List.length_drop]
    omega
  · intro hok
    obtain ⟨agent, pairs, hstate, hhist, -, -⟩ := session_state_ok subject N oracle i hok
    refine ⟨agent, pairs, hstate, hhist, ?_⟩
    simp only [recent_questions, List.length_drop, hhist]
    omega

/-- Witness for C4 at a 4-entry history and iteration 4 of a 5-pair
session under an all-success oracle. -/
theorem spec_c4_witness :
    (recent_questions ["a", "b", "c", "d"]).length =
      min (["a", "b", "c", "d"] : List String).length 3 ∧
    List.IsSuffix (recent_questions ["a", "b", "c", "d"]) ["a", "b", "c", "d"] ∧
    (∃ agent pairs,
      session_state "Photosynthesis" 5 (fun _ _ => Except.ok "q") 4 =
        Except.ok (agent, pairs) ∧
      agent.question_history.length = 4 ∧
      (recent_questions agent.question_history).length = min 4 3) :=
  have h := spec_c4 ["a", "b", "c", "d"] "Photosynthesis" 5
    (fun _ _ => Except.ok "q") 4 (by decide)
  ⟨h.1, h.2.1, h.2.2 (fun _ _ _ => ⟨"q", rfl⟩)⟩

/-- On success `generate_question` returns the stripped service content and
the agent whose history is the old history with that question appended. -/
lemma generate_question_ok {agent : QuestionAgent} {subject : String} {i N : ℕ}
    {respond : CompletionRequest → Except String String}
    {q : String} {agent' : QuestionAgent}
    (h : generate_question agent subject i N respond = Except.ok (q, agent')) :
    agent'.question_history = agent.question_history ++ [q] ∧
    ∃ content, respond (question_request agent subject i N) = Except.ok content ∧
      q = strip content := by
  unfold generate_question at h
  cases hr : respond (question_request agent subject i N) with
  | error msg => rw [hr] at h; simp at h
  | ok content =>
      rw [hr] at h
      simp only [Except.ok.injEq, Prod.mk.injEq] at h
      obtain ⟨hq, hagent⟩ := h
      subst hq
      refine ⟨?_, content, rfl, rfl⟩
      rw [← hagent]

/-- C5: on every successful call `generate_question` appends the
whitespace-stripped question to the history before returning it (the
returned question is the last history entry); consequently, when the answer
call of the same iteration fails, the loop body yields that error — no QA
pair is emitted — while the intermediate agent's history does contain the
question. -/
theorem spec_c5 (agent : QuestionAgent) (subject : String) (i N : ℕ)
    (respond : CompletionRequest → Except String String)
    (oracle : Oracle) (st : QuestionAgent × List QAPair)
    (q : String) (agent' : QuestionAgent) (e : GenerationError) :
    (generate_question agent subject i N respond = Except.ok (q, agent') →
      agent'.question_history = agent.question_history ++ [q] ∧
      agent'.question_history.getLast? = some q ∧
      ∃ content, respond (question_request agent subject i N) = Except.ok content ∧
        q = strip content) ∧
    (generate_question st.1 subject i N (oracle (2 * i)) = Except.ok (q, agent') →
      generate_answer q (oracle (2 * i + 1)) = Except.error e →
      run_step subject N oracle st i = Except.error e ∧
      q ∈ agent'.question_history) := by
  constructor
  · intro hgen
    obtain ⟨hhist, hcontent⟩ := generate_question_ok hgen
    exact ⟨hhist, by simp [hhist, List.getLast?_concat], hcontent⟩
  · intro hgen hans
    obtain ⟨hhist, -⟩ := generate_question_ok hgen
    refine ⟨?_, ?_⟩
    · simp only [run_step, hgen, hans]
    · simp [hhist]

/-- Witness for C5: the service returns `" q1 "` for the question of
iteration 0 and fails with `"boom"` for its answer. -/
theorem spec_c5_witness :
    (({ QuestionAgent.init with
          question_history := QuestionAgent.init.question_history ++ [strip " q1 "] } :
        QuestionAgent).question_history =
          QuestionAgent.init.question_history ++ [strip " q1 "] ∧
      ({ QuestionAgent.init with
          question_history := QuestionAgent.init.question_history ++ [strip " q1 "] } :
        QuestionAgent).question_history.getLast? = some (strip " q1 ") ∧
      ∃ content, (Except.ok " q1 " : Except String String) = Except.ok content ∧
        strip " q1 " = strip content) ∧
    (run_step "Biology" 1
        (fun n _ => if n = 0 then Except.ok " q1 " else Except.error "boom")
        (QuestionAgent.init, []) 0 =
          Except.error { message := "Failed to generate answer: " ++ "boom" } ∧
      strip " q1 " ∈ ({ QuestionAgent.init with
          question_history := QuestionAgent.init.question_history ++ [strip " q1 "] } :
        QuestionAgent).question_history) := by
  have h := spec_c5 QuestionAgent.init "Biology" 0 1 (fun _ => Except.ok " q1 ")
      (fun n _ => if n = 0 then Except.ok " q1 " else Except.error "boom")
      (QuestionAgent.init, []) (strip " q1 ")
      { QuestionAgent.init with
          question_history := QuestionAgent.init.question_history ++ [strip " q1 "] }
      { message := "Failed to generate answer: " ++ "boom" }
  exact ⟨h.1 rfl, h.2 rfl rfl⟩

/-!
### C7, C9, C10
-/

/-- C7: a request whose subject strips to the empty string, or whose
`num_pairs` lies outside `[1, 50]`, fails pydantic validation, so the
orchestrator (`run_qa_session`) is never invoked on it — FastAPI rejects
the request before the endpoint body runs, and `run_session` only ever
receives a validated `SessionRequest`.  The core itself raises only
`GenerationError`, never a validation error. -/
theorem spec_c7 (subject : String) (num_pairs : Option ℤ) (n : ℤ) :
    ((strip subject).isEmpty = true →
      ∃ msg, validate_session_request subject num_pairs = Except.error msg) ∧
    (n < 1 ∨ 50 < n →
      ∃ msg, validate_session_request subject (some n) = Except.error msg) := by
  constructor
  · intro hempty
    unfold validate_session_request
    by_cases h1 : subject.length < 1
    · exact ⟨_, by rw [if_pos h1]⟩
    · exact ⟨_, by rw [if_neg h1, if_pos hempty]⟩
  · intro hn
    unfold validate_session_request
    by_cases h1 : subject.length < 1
    · exact ⟨_, by rw [if_pos h1]⟩
    · by_cases h2 : (strip subject).isEmpty
      · exact ⟨_, by rw [if_neg h1, if_pos h2]⟩
      · rcases hn with hn | hn
        · have hn' : (some n : Option ℤ).getD 10 < 1 := by simpa using hn
          exact ⟨_, by rw [if_neg h1, if_neg h2, if_pos hn']⟩
        · have hn1 : ¬ (some n : Option ℤ).getD 10 < 1 := by simp; omega
          have hn' : 50 < (some n : Option ℤ).getD 10 := by simpa using hn
          exact ⟨_, by rw [if_neg h1, if_neg h2, if_neg hn1, if_pos hn']⟩

/-- Witness for C7 at the concrete invalid inputs `subject = "  "`,
`num_pairs = 0` and `num_pairs = 51`. -/
theorem spec_c7_witness :
    (∃ msg, validate_session_request "  " none = Except.error msg) ∧
    (∃ msg, validate_session_request "Biology" (some 0) = Except.error msg) ∧
    (∃ msg, validate_session_request "Biology" (some 51) = Except.error msg) :=
  ⟨(spec_c7 "  " none 0).1 (by decide),
   (spec_c7 "Biology" (some 0) 0).2 (Or.inl (by decide)),
   (spec_c7 "Biology" (some 51) 51).2 (Or.inr (by decide))⟩

/-- C9: a request that omits `num_pairs` but has a valid subject passes
validation with `num_pairs` defaulting to 10, and the orchestrator then
runs 10 iterations, producing 10 pairs when every external call succeeds. -/
theorem spec_c9 (subject : String) (oracle : Oracle)
    (hlen : ¬ subject.length < 1)
    (hsub : (strip subject).isEmpty = false)
    (hok : ∀ n req, ∃ s, oracle n req = Except.ok s) :
    validate_session_request subject none =
      Except.ok { subject := strip subject, num_pairs := 10 } ∧
    ∃ pairs, run_qa_session (strip subject) 10 oracle = Except.ok pairs ∧
      pairs.length = 10 := by
  constructor
  · unfold validate_session_request
    rw [if_neg hlen, if_neg (by simp [hsub])]
    rfl
  · obtain ⟨agent, pairs, hstate, -, hlenp, -⟩ :=
      session_state_ok (strip subject) 10 oracle 10 (fun n _ req => hok n req)
    exact ⟨pairs, by simp only [run_qa_session, hstate], hlenp⟩

/-- Witness for C9 at `subject = "math"` and an all-success oracle. -/
theorem spec_c9_witness :
    validate_session_request "math" none =
      Except.ok { subject := strip "math", num_pairs := 10 } ∧
    ∃ pairs, run_qa_session (strip "math") 10 (fun _ _ => Except.ok "q") = Except.ok pairs ∧
      pairs.length = 10 :=
  spec_c9 "math" (fun _ _ => Except.ok "q") (by decide) (by decide)
    (fun _ _ => ⟨"q", rfl⟩)

/-- C10: the subject a validated request carries — the one handed to the
orchestrator, echoed in the response and used for the archive file name —
is the whitespace-stripped form of the submitted subject, not the raw
input. -/
theorem spec_c10 (raw : String) (num_pairs : Option ℤ) (req : SessionRequest)
    (oracle : Oracle) (timestamp : String)
    (hval : validate_session_request raw num_pairs = Except.ok req) :
    req.subject = strip raw ∧
    (∀ response filename,
      run_session req oracle timestamp = Except.ok (response, filename) →
      response.subject = strip raw ∧
      filename = session_filename (strip raw) timestamp) := by
  have hsubj : req.subject = strip raw := by
    unfold validate_session_request at hval
    by_cases h1 : raw.length < 1
    · rw [if_pos h1] at hval; simp at hval
    · rw [if_neg h1] at hval
      by_cases h2 : (strip raw).isEmpty
      · rw [if_pos h2] at hval; simp at hval
      · rw [if_neg h2] at hval
        by_cases h3 : num_pairs.getD 10 < 1
        · rw [if_pos h3] at hval; simp at hval
        · rw [if_neg h3] at hval
          by_cases h4 : 50 < num_pairs.getD 10
          · rw [if_pos h4] at hval; simp at hval
          · rw [if_neg h4] at hval
            simp only [Except.ok.injEq] at hval
            rw [← hval]
  refine ⟨hsubj, ?_⟩
  intro response filename hrun
  unfold run_session at hrun
  cases hq : run_qa_session req.subject req.num_pairs oracle with
  | error e => rw [hq] at hrun; simp at hrun
  | ok pairs =>
      rw [hq] at hrun
      simp only [Except.ok.injEq, Prod.mk.injEq] at hrun
      obtain ⟨hresp, hfile⟩ := hrun
      constructor
      · rw [← hresp]
        simp [build_session_response, hsubj]
      · rw [← hfile, hsubj]

/-- Witness for C10 at the raw subject `" math "` (whitespace around it)
with an all-success oracle: the response subject is the stripped `"math"`. -/
theorem spec_c10_witness :
    ({ subject := "math", num_pairs := 10 } : SessionRequest).subject = strip " math " ∧
    (∀ response filename,
      run_session { subject := "math", num_pairs := 10 } (fun _ _ => Except.ok "q") "ts" =
        Except.ok (response, filename) →
      response.subject = strip " math " ∧
      filename = session_filename (strip " math ") "ts") :=
  spec_c10 " math " none { subject := "math", num_pairs := 10 }
    (fun _ _ => Except.ok "q") "ts" rfl
